import Mathlib

/-
Verification of the hikcamera repository (src/hikcamera.py, src/utils.py,
src/config.py) against its natural-language specification.  The Python code
is shallowly embedded: native SDK calls are modelled by an environment
record holding the status code each call would return, numeric values are
Int, byte buffers are List Nat, and raised exceptions are Option/Except
values.
-/

deriving instance DecidableEq for Except

namespace HikCam

/-- Vendor pixel-format codes (standard GigE Vision encoding, as defined by
the camera SDK header imported by src/utils.py).  Bits 16-23 of a code hold
the bits-per-pixel of the format. -/
def PixelType_Gvsp_Mono8 : Int := 0x01080001

/-- Mono10 pixel-format code. -/
def PixelType_Gvsp_Mono10 : Int := 0x01100003

/-- Mono10 packed pixel-format code. -/
def PixelType_Gvsp_Mono10_Packed : Int := 0x010C0004

/-- Mono12 pixel-format code. -/
def PixelType_Gvsp_Mono12 : Int := 0x01100005

/-- Mono12 packed pixel-format code. -/
def PixelType_Gvsp_Mono12_Packed : Int := 0x010C0006

/-- Mono16 pixel-format code (16 bits per pixel). -/
def PixelType_Gvsp_Mono16 : Int := 0x01100007

/-- BayerGR8 pixel-format code. -/
def PixelType_Gvsp_BayerGR8 : Int := 0x01080008

/-- BayerRG8 pixel-format code. -/
def PixelType_Gvsp_BayerRG8 : Int := 0x01080009

/-- BayerGB8 pixel-format code. -/
def PixelType_Gvsp_BayerGB8 : Int := 0x0108000A

/-- BayerBG8 pixel-format code. -/
def PixelType_Gvsp_BayerBG8 : Int := 0x0108000B

/-- BayerGR10 pixel-format code. -/
def PixelType_Gvsp_BayerGR10 : Int := 0x0110000C

/-- BayerRG10 pixel-format code. -/
def PixelType_Gvsp_BayerRG10 : Int := 0x0110000D

/-- BayerGB10 pixel-format code. -/
def PixelType_Gvsp_BayerGB10 : Int := 0x0110000E

/-- BayerBG10 pixel-format code. -/
def PixelType_Gvsp_BayerBG10 : Int := 0x0110000F

/-- BayerGR12 pixel-format code. -/
def PixelType_Gvsp_BayerGR12 : Int := 0x01100010

/-- BayerRG12 pixel-format code. -/
def PixelType_Gvsp_BayerRG12 : Int := 0x01100011

/-- BayerGB12 pixel-format code. -/
def PixelType_Gvsp_BayerGB12 : Int := 0x01100012

/-- BayerBG12 pixel-format code. -/
def PixelType_Gvsp_BayerBG12 : Int := 0x01100013

/-- BayerGR10 packed pixel-format code. -/
def PixelType_Gvsp_BayerGR10_Packed : Int := 0x010C0026

/-- BayerRG10 packed pixel-format code. -/
def PixelType_Gvsp_BayerRG10_Packed : Int := 0x010C0027

/-- BayerGB10 packed pixel-format code. -/
def PixelType_Gvsp_BayerGB10_Packed : Int := 0x010C0028

/-- BayerBG10 packed pixel-format code. -/
def PixelType_Gvsp_BayerBG10_Packed : Int := 0x010C0029

/-- BayerGR12 packed pixel-format code. -/
def PixelType_Gvsp_BayerGR12_Packed : Int := 0x010C002A

/-- BayerRG12 packed pixel-format code. -/
def PixelType_Gvsp_BayerRG12_Packed : Int := 0x010C002B

/-- BayerGB12 packed pixel-format code. -/
def PixelType_Gvsp_BayerGB12_Packed : Int := 0x010C002C

/-- BayerBG12 packed pixel-format code. -/
def PixelType_Gvsp_BayerBG12_Packed : Int := 0x010C002D

/-- RGB8 packed pixel-format code. -/
def PixelType_Gvsp_RGB8_Packed : Int := 0x02180014

/-- BGR8 packed pixel-format code. -/
def PixelType_Gvsp_BGR8_Packed : Int := 0x02180015

/-- RGBA8 packed pixel-format code. -/
def PixelType_Gvsp_RGBA8_Packed : Int := 0x02200016

/-- BGRA8 packed pixel-format code. -/
def PixelType_Gvsp_BGRA8_Packed : Int := 0x02200017

/-- YUV422 packed pixel-format code. -/
def PixelType_Gvsp_YUV422_Packed : Int := 0x0220001F

/-- YUV422 YUYV packed pixel-format code. -/
def PixelType_Gvsp_YUV422_YUYV_Packed : Int := 0x02100032

/-- Bits per pixel encoded in a GigE Vision pixel-format code (bits 16-23);
used to build synthetic frames whose byte length matches what a camera
reports for that format. -/
def bitsPerPixel (pt : Int) : Nat := (pt.toNat / 65536) % 256

/-- Embedding of BAYER_TO_COLOR_CODE from src/utils.py lines 133-154: the
association list, in source order, from Bayer pixel-format codes to the
demosaic color code the converter dispatches on. -/
def bayerColorPairs : List (Int × Nat) :=
  [(PixelType_Gvsp_BayerGR8, 0), (PixelType_Gvsp_BayerRG8, 1),
   (PixelType_Gvsp_BayerGB8, 2), (PixelType_Gvsp_BayerBG8, 3),
   (PixelType_Gvsp_BayerGR10, 0), (PixelType_Gvsp_BayerRG10, 1),
   (PixelType_Gvsp_BayerGB10, 2), (PixelType_Gvsp_BayerBG10, 3),
   (PixelType_Gvsp_BayerGR12, 0), (PixelType_Gvsp_BayerRG12, 1),
   (PixelType_Gvsp_BayerGB12, 2), (PixelType_Gvsp_BayerBG12, 3),
   (PixelType_Gvsp_BayerGR10_Packed, 0), (PixelType_Gvsp_BayerRG10_Packed, 1),
   (PixelType_Gvsp_BayerGB10_Packed, 2), (PixelType_Gvsp_BayerBG10_Packed, 3),
   (PixelType_Gvsp_BayerGR12_Packed, 0), (PixelType_Gvsp_BayerRG12_Packed, 1),
   (PixelType_Gvsp_BayerGB12_Packed, 2), (PixelType_Gvsp_BayerBG12_Packed, 3)]

/-- Dictionary lookup BAYER_TO_COLOR_CODE.get(pt) (src/utils.py). -/
def BAYER_TO_COLOR_CODE (pt : Int) : Option Nat :=
  bayerColorPairs.lookup pt

/-- Embedding of is_bayer_format (src/utils.py lines 197-199):
membership in the BAYER_TO_COLOR_CODE dictionary. -/
def is_bayer_format (pt : Int) : Bool :=
  (BAYER_TO_COLOR_CODE pt).isSome

/-- Embedding of is_mono_format (src/utils.py lines 202-212). -/
def is_mono_format (pt : Int) : Bool :=
  [PixelType_Gvsp_Mono8, PixelType_Gvsp_Mono10, PixelType_Gvsp_Mono10_Packed,
   PixelType_Gvsp_Mono12, PixelType_Gvsp_Mono12_Packed,
   PixelType_Gvsp_Mono16].contains pt

/-- Embedding of is_rgb_format (src/utils.py lines 215-218). -/
def is_rgb_format (pt : Int) : Bool :=
  [PixelType_Gvsp_RGB8_Packed, PixelType_Gvsp_BGR8_Packed,
   PixelType_Gvsp_RGBA8_Packed, PixelType_Gvsp_BGRA8_Packed].contains pt

/-- Embedding of get_pixel_format_name (src/utils.py lines 157-194); the
unknown-code branch keeps the static text of the source's message. -/
def get_pixel_format_name (pt : Int) : String :=
  (([(PixelType_Gvsp_Mono8, "Mono8"), (PixelType_Gvsp_Mono10, "Mono10"),
     (PixelType_Gvsp_Mono10_Packed, "Mono10_Packed"),
     (PixelType_Gvsp_Mono12, "Mono12"),
     (PixelType_Gvsp_Mono12_Packed, "Mono12_Packed"),
     (PixelType_Gvsp_Mono16, "Mono16"),
     (PixelType_Gvsp_BayerGR8, "BayerGR8"), (PixelType_Gvsp_BayerRG8, "BayerRG8"),
     (PixelType_Gvsp_BayerGB8, "BayerGB8"), (PixelType_Gvsp_BayerBG8, "BayerBG8"),
     (PixelType_Gvsp_BayerGR10, "BayerGR10"), (PixelType_Gvsp_BayerRG10, "BayerRG10"),
     (PixelType_Gvsp_BayerGB10, "BayerGB10"), (PixelType_Gvsp_BayerBG10, "BayerBG10"),
     (PixelType_Gvsp_BayerGR10_Packed, "BayerGR10_Packed"),
     (PixelType_Gvsp_BayerRG10_Packed, "BayerRG10_Packed"),
     (PixelType_Gvsp_BayerGB10_Packed, "BayerGB10_Packed"),
     (PixelType_Gvsp_BayerBG10_Packed, "BayerBG10_Packed"),
     (PixelType_Gvsp_BayerGR12, "BayerGR12"), (PixelType_Gvsp_BayerRG12, "BayerRG12"),
     (PixelType_Gvsp_BayerGB12, "BayerGB12"), (PixelType_Gvsp_BayerBG12, "BayerBG12"),
     (PixelType_Gvsp_BayerGR12_Packed, "BayerGR12_Packed"),
     (PixelType_Gvsp_BayerRG12_Packed, "BayerRG12_Packed"),
     (PixelType_Gvsp_BayerGB12_Packed, "BayerGB12_Packed"),
     (PixelType_Gvsp_BayerBG12_Packed, "BayerBG12_Packed"),
     (PixelType_Gvsp_RGB8_Packed, "RGB8_Packed"),
     (PixelType_Gvsp_BGR8_Packed, "BGR8_Packed"),
     (PixelType_Gvsp_RGBA8_Packed, "RGBA8_Packed"),
     (PixelType_Gvsp_BGRA8_Packed, "BGRA8_Packed"),
     (PixelType_Gvsp_YUV422_Packed, "YUV422_Packed"),
     (PixelType_Gvsp_YUV422_YUYV_Packed, "YUV422_YUYV_Packed")]
      : List (Int × String)).lookup pt).getD "Unknown"

/-- Image value: a numpy array of shape height by width by channels with
its flattened byte contents. -/
structure Image where
  height : Nat
  width : Nat
  channels : Nat
  data : List Nat
  deriving DecidableEq

/-- Exceptions a frame conversion can raise in Python: numpy's ValueError
from a mismatched reshape, or a HikCameraError message. -/
inductive PyErr where
  | valueError : PyErr
  | hikCameraError : String → PyErr
  deriving DecidableEq

/-- Embedding of numpy reshape: succeeds exactly when the flat length
matches the requested shape. -/
def reshape (d : List Nat) (h w c : Nat) : Except PyErr Image :=
  if d.length = h * w * c then Except.ok ⟨h, w, c, d⟩ else Except.error PyErr.valueError

/-- The cv2 color-conversion constants used by
HikCamera._convert_frame_to_bgr (src/hikcamera.py lines 266-300). -/
inductive ColorConv where
  | rgb2bgr | rgba2bgr | bgra2bgr | gray2bgr
  | bayerGR2BGR | bayerRG2BGR | bayerGB2BGR | bayerBG2BGR
  deriving DecidableEq

/-- Swap the first and third entry of each 3-tuple (cv2 RGB to BGR). -/
def swapRB : List Nat → List Nat
  | r :: g :: b :: rest => b :: g :: r :: swapRB rest
  | rest => rest

/-- Drop the alpha entry of each RGBA 4-tuple and reorder to BGR. -/
def rgbaToBgr : List Nat → List Nat
  | r :: g :: b :: _ :: rest => b :: g :: r :: rgbaToBgr rest
  | _ => []

/-- Drop the alpha entry of each BGRA 4-tuple. -/
def bgraToBgr : List Nat → List Nat
  | b :: g :: r :: _ :: rest => b :: g :: r :: bgraToBgr rest
  | _ => []

/-- Replicate each single-channel value into three channels (cv2 gray to BGR). -/
def grayToBgr (d : List Nat) : List Nat :=
  d.flatMap (fun v => [v, v, v])

/-- Model of cv2's Bayer demosaic (external library capability, out of the
repository's scope): it produces three channels per input pixel and its
output depends on the selected Bayer pattern, which is all the claims rely
on; the actual interpolation arithmetic is not modelled. -/
def demosaicModel (patternCode : Nat) (d : List Nat) : List Nat :=
  d.flatMap (fun v => [v, v, patternCode])

/-- Model of cv2.cvtColor for the conversions the repository invokes;
every conversion yields a 3-channel image of the input's height and width. -/
def cvtColor : ColorConv → Image → Image
  | ColorConv.rgb2bgr, img => ⟨img.height, img.width, 3, swapRB img.data⟩
  | ColorConv.rgba2bgr, img => ⟨img.height, img.width, 3, rgbaToBgr img.data⟩
  | ColorConv.bgra2bgr, img => ⟨img.height, img.width, 3, bgraToBgr img.data⟩
  | ColorConv.gray2bgr, img => ⟨img.height, img.width, 3, grayToBgr img.data⟩
  | ColorConv.bayerGR2BGR, img => ⟨img.height, img.width, 3, demosaicModel 0 img.data⟩
  | ColorConv.bayerRG2BGR, img => ⟨img.height, img.width, 3, demosaicModel 1 img.data⟩
  | ColorConv.bayerGB2BGR, img => ⟨img.height, img.width, 3, demosaicModel 2 img.data⟩
  | ColorConv.bayerBG2BGR, img => ⟨img.height, img.width, 3, demosaicModel 3 img.data⟩

/-- A raw frame after the copy-out step of the converter: the reported
width, height and pixel format plus the nFrameLen bytes copied from the
driver buffer (read as uint8, exactly as np.frombuffer with dtype uint8). -/
structure RawFrame where
  width : Nat
  height : Nat
  pixelType : Int
  data : List Nat
  deriving DecidableEq

/-- The demosaic-path selection of the converter's Bayer branch
(src/hikcamera.py lines 288-295): color code 0 selects the GR conversion,
1 RG, 2 GB and anything else BG. -/
def bayerConvOfCode (code : Nat) : ColorConv :=
  if code = 0 then ColorConv.bayerGR2BGR
  else if code = 1 then ColorConv.bayerRG2BGR
  else if code = 2 then ColorConv.bayerGB2BGR
  else ColorConv.bayerBG2BGR

/-- Embedding of HikCamera._convert_frame_to_bgr (src/hikcamera.py lines
242-307), after the byte copy: dispatch on the pixel-format classifier,
reshape the uint8 buffer per the declared dimensions, and apply the
selected cv2 conversion.  A failed reshape raises numpy's ValueError; an
unclassified format raises a HikCameraError naming the format. -/
def convert_frame_to_bgr (f : RawFrame) : Except PyErr Image :=
  let w := f.width
  let h := f.height
  let pt := f.pixelType
  if is_rgb_format pt then
    if pt = PixelType_Gvsp_RGB8_Packed then
      (reshape f.data h w 3).map (cvtColor ColorConv.rgb2bgr)
    else if pt = PixelType_Gvsp_BGR8_Packed then
      reshape f.data h w 3
    else
      (reshape f.data h w 4).map (fun img =>
        if pt = PixelType_Gvsp_RGBA8_Packed then cvtColor ColorConv.rgba2bgr img
        else cvtColor ColorConv.bgra2bgr img)
  else if is_bayer_format pt then
    let color_code := (BAYER_TO_COLOR_CODE pt).getD 0
    (reshape f.data h w 1).map (cvtColor (bayerConvOfCode color_code))
  else if is_mono_format pt then
    (reshape f.data h w 1).map (cvtColor ColorConv.gray2bgr)
  else
    Except.error (PyErr.hikCameraError
      ("unsupported pixel format: " ++ get_pixel_format_name pt))

/-- A synthetic raw frame for format pt whose byte length is exactly what a
camera reports for a width by height frame of that format (width times
height times bits-per-pixel over eight). -/
def syntheticFrame (pt : Int) (w h : Nat) : RawFrame :=
  ⟨w, h, pt, List.replicate (w * h * bitsPerPixel pt / 8) 7⟩

/-- Conversion of a synthetic 3 by 2 frame of format pt succeeds and yields
an image of shape height by width by 3. -/
def convertShapeOk (pt : Int) : Bool :=
  match convert_frame_to_bgr (syntheticFrame pt 3 2) with
  | Except.ok img =>
      img.height == 2 && img.width == 3 && img.channels == 3 && img.data.length == 18
  | Except.error _ => false

/-- Embedding of HikCameraConfig (src/config.py lines 53-74): the mutable
session configuration, with the Python dataclass's field types mapped to
Int and String. -/
structure HikCameraConfig where
  camera_index : Int
  trigger_mode : String
  width : Int
  height : Int
  exposure : Int
  gain : Int
  fps : Int
  timeout : Int
  deriving DecidableEq

/-- Embedding of HikCameraConfig construction with __post_init__ validation
(src/config.py lines 76-92): each check raises with the static text of the
source's message, in source order; a dataclass is returned only when every
check passes. -/
def mkConfig (camera_index : Int) (trigger_mode : String) (width height : Int)
    (exposure gain fps timeout : Int) : Except String HikCameraConfig :=
  if trigger_mode ≠ "continuous" ∧ trigger_mode ≠ "trigger" then
    Except.error "Invalid trigger_mode"
  else if camera_index < 0 then
    Except.error "camera_index must be non-negative"
  else if width ≤ 0 ∨ height ≤ 0 then
    Except.error "width and height must be positive"
  else if exposure < 0 then
    Except.error "exposure must be non-negative"
  else if gain < 0 then
    Except.error "gain must be non-negative"
  else if fps ≤ 0 then
    Except.error "fps must be positive"
  else if timeout ≤ 0 then
    Except.error "timeout must be positive"
  else
    Except.ok ⟨camera_index, trigger_mode, width, height, exposure, gain, fps, timeout⟩

/-- Embedding of CameraParams (src/config.py lines 8-31). -/
structure CameraParams where
  width : Int
  height : Int
  exposure : Int
  gain : Int
  fps : Int
  pixel_format : String
  trigger_mode : String
  offset_x : Int
  offset_y : Int
  deriving DecidableEq

/-- Errors raised as HikCameraError by the session methods, tagged by the
raising call site and carrying the native status code where the source
message embeds one. -/
inductive HikErr where
  | enumFailed : Int → HikErr
  | noDevice : HikErr
  | indexOutOfRange : Nat → Nat → HikErr
  | createFailed : Int → HikErr
  | openFailed : Int → HikErr
  | payloadFailed : Int → HikErr
  | startFailed : Int → HikErr
  | stopFailed : Int → HikErr
  | notStreaming : HikErr
  | getImageFailed : Int → HikErr
  | convFailed : PyErr → HikErr
  | wrongTriggerMode : HikErr
  | triggerFailed : Int → HikErr
  | setFailed : String → Int → HikErr
  | invalidTriggerMode : HikErr
  deriving DecidableEq

/-- Native SDK calls the session can issue, recorded in traces so theorems
can state which calls a code path performs. -/
inductive NativeCall where
  | enumDevices : NativeCall
  | createHandle : NativeCall
  | openDevice : NativeCall
  | closeDevice : NativeCall
  | destroyHandle : NativeCall
  | getOptimalPacketSize : NativeCall
  | startGrabbing : NativeCall
  | stopGrabbing : NativeCall
  | getImageBuffer : NativeCall
  | freeImageBuffer : NativeCall
  | setIntValue : String → Int → NativeCall
  | setFloatValue : String → Int → NativeCall
  | setEnumValue : String → NativeCall
  | setCommandValue : String → NativeCall
  | getIntValue : String → NativeCall
  | getFloatValue : String → NativeCall
  deriving DecidableEq

/-- Device-side environment for the parameter accessors: the status code
each native set call returns, and for each native get call its status code
and the value the device would report. -/
structure DevEnv where
  widthRet : Int
  heightRet : Int
  expFloatRet : Int
  expIntRet : Int
  gainRet : Int
  analogGainRet : Int
  fpsRet : Int
  offsetXRet : Int
  offsetYRet : Int
  expFloatGetRet : Int
  expFloatGetVal : Int
  expIntGetRet : Int
  expIntGetVal : Int
  gainGetRet : Int
  gainGetVal : Int
  fpsGetRet : Int
  fpsGetVal : Int
  offsetXGetRet : Int
  offsetXGetVal : Int
  offsetYGetRet : Int
  offsetYGetVal : Int
  deriving DecidableEq

/-- An all-success device environment reporting zero for every queried value. -/
def env0 : DevEnv := ⟨0, 0, 0, 0, 0, 0, 0, 0, 0, 0, 0, 0, 0, 0, 0, 0, 0, 0, 0, 0, 0⟩

/-- Embedding of the width setter (src/hikcamera.py lines 353-359): the
cached config is assigned first, then the native write is issued, and a
non-success status raises. -/
def set_width (env : DevEnv) (cfg : HikCameraConfig) (v : Int) :
    Option HikErr × HikCameraConfig × List NativeCall :=
  let cfg1 := { cfg with width := v }
  if env.widthRet ≠ 0 then
    (some (HikErr.setFailed "Width" env.widthRet), cfg1, [NativeCall.setIntValue "Width" v])
  else
    (none, cfg1, [NativeCall.setIntValue "Width" v])

/-- Embedding of the height setter (src/hikcamera.py lines 366-372). -/
def set_height (env : DevEnv) (cfg : HikCameraConfig) (v : Int) :
    Option HikErr × HikCameraConfig × List NativeCall :=
  let cfg1 := { cfg with height := v }
  if env.heightRet ≠ 0 then
    (some (HikErr.setFailed "Height" env.heightRet), cfg1, [NativeCall.setIntValue "Height" v])
  else
    (none, cfg1, [NativeCall.setIntValue "Height" v])

/-- Embedding of the exposure setter (src/hikcamera.py lines 391-401): the
cached config is assigned first, the float write is tried, an integer write
is tried as fallback, and only failure of both raises. -/
def set_exposure (env : DevEnv) (cfg : HikCameraConfig) (v : Int) :
    Option HikErr × HikCameraConfig × List NativeCall :=
  let cfg1 := { cfg with exposure := v }
  if env.expFloatRet = 0 then
    (none, cfg1, [NativeCall.setFloatValue "ExposureTime" v])
  else if env.expIntRet = 0 then
    (none, cfg1,
      [NativeCall.setFloatValue "ExposureTime" v, NativeCall.setIntValue "ExposureTime" v])
  else
    (some (HikErr.setFailed "ExposureTime" env.expIntRet), cfg1,
      [NativeCall.setFloatValue "ExposureTime" v, NativeCall.setIntValue "ExposureTime" v])

/-- Embedding of the gain setter (src/hikcamera.py lines 412-423): the
cached config is assigned first, the Gain write is tried, AnalogGain is
tried as fallback, and failure of both only prints a warning (the returned
Bool) without raising. -/
def set_gain (env : DevEnv) (cfg : HikCameraConfig) (v : Int) :
    Option HikErr × Bool × HikCameraConfig × List NativeCall :=
  let cfg1 := { cfg with gain := v }
  if env.gainRet = 0 then
    (none, false, cfg1, [NativeCall.setFloatValue "Gain" v])
  else if env.analogGainRet = 0 then
    (none, false, cfg1,
      [NativeCall.setFloatValue "Gain" v, NativeCall.setFloatValue "AnalogGain" v])
  else
    (none, true, cfg1,
      [NativeCall.setFloatValue "Gain" v, NativeCall.setFloatValue "AnalogGain" v])

/-- Embedding of the fps setter (src/hikcamera.py lines 434-440). -/
def set_fps (env : DevEnv) (cfg : HikCameraConfig) (v : Int) :
    Option HikErr × HikCameraConfig × List NativeCall :=
  let cfg1 := { cfg with fps := v }
  if env.fpsRet ≠ 0 then
    (some (HikErr.setFailed "AcquisitionFrameRate" env.fpsRet), cfg1,
      [NativeCall.setFloatValue "AcquisitionFrameRate" v])
  else
    (none, cfg1, [NativeCall.setFloatValue "AcquisitionFrameRate" v])

/-- Embedding of _set_offset_x (src/hikcamera.py lines 584-588); the cached
config has no offset field, so only the native write happens. -/
def set_offset_x (env : DevEnv) (v : Int) : Option HikErr × List NativeCall :=
  if env.offsetXRet ≠ 0 then
    (some (HikErr.setFailed "OffsetX" env.offsetXRet), [NativeCall.setIntValue "OffsetX" v])
  else
    (none, [NativeCall.setIntValue "OffsetX" v])

/-- Embedding of _set_offset_y (src/hikcamera.py lines 590-594). -/
def set_offset_y (env : DevEnv) (v : Int) : Option HikErr × List NativeCall :=
  if env.offsetYRet ≠ 0 then
    (some (HikErr.setFailed "OffsetY" env.offsetYRet), [NativeCall.setIntValue "OffsetY" v])
  else
    (none, [NativeCall.setIntValue "OffsetY" v])

/-- Result threaded through set_params: the raised error if any, whether a
gain warning was printed, the current config, and the native calls issued
so far. -/
abbrev PState := Option HikErr × Bool × HikCameraConfig × List NativeCall

/-- Sequencing of one set_params step: once an error has been raised the
remaining steps do not run (the Python exception aborts the method). -/
def psStep (prev : PState) (f : HikCameraConfig → PState) : PState :=
  match prev with
  | (some e, wn, c, t) => (some e, wn, c, t)
  | (none, wn, c, t) =>
      let r := f c
      (r.1, wn || r.2.1, r.2.2.1, t ++ r.2.2.2)

/-- Embedding of HikCamera.set_params (src/hikcamera.py lines 488-537):
each explicitly supplied field is applied through the corresponding setter,
in the source's fixed order; a raised error aborts the remaining fields;
the trigger-mode branch validates the string, stores it in the config and
re-issues the trigger-mode (and for software trigger the trigger-source)
enum writes, whose status codes the source discards. -/
def set_params (env : DevEnv) (cfg : HikCameraConfig)
    (width height exposure gain fps : Option Int) (trigger_mode : Option String)
    (offset_x offset_y : Option Int) : PState :=
  let st0 : PState := (none, false, cfg, [])
  let st1 := match width with
    | none => st0
    | some v => psStep st0 (fun c =>
        let r := set_width env c v
        (r.1, false, r.2.1, r.2.2))
  let st2 := match height with
    | none => st1
    | some v => psStep st1 (fun c =>
        let r := set_height env c v
        (r.1, false, r.2.1, r.2.2))
  let st3 := match exposure with
    | none => st2
    | some v => psStep st2 (fun c =>
        let r := set_exposure env c v
        (r.1, false, r.2.1, r.2.2))
  let st4 := match gain with
    | none => st3
    | some v => psStep st3 (fun c => set_gain env c v)
  let st5 := match fps with
    | none => st4
    | some v => psStep st4 (fun c =>
        let r := set_fps env c v
        (r.1, false, r.2.1, r.2.2))
  let st6 := match trigger_mode with
    | none => st5
    | some tm => psStep st5 (fun c =>
        if tm ≠ "continuous" ∧ tm ≠ "trigger" then
          (some HikErr.invalidTriggerMode, false, c, [])
        else
          let c2 := { c with trigger_mode := tm }
          if tm = "trigger" then
            (none, false, c2,
              [NativeCall.setEnumValue "TriggerMode", NativeCall.setEnumValue "TriggerSource"])
          else
            (none, false, c2, [NativeCall.setEnumValue "TriggerMode"]))
  let st7 := match offset_x with
    | none => st6
    | some v => psStep st6 (fun c =>
        let r := set_offset_x env v
        (r.1, false, c, r.2))
  match offset_y with
  | none => st7
  | some v => psStep st7 (fun c =>
      let r := set_offset_y env v
      (r.1, false, c, r.2))

/-- Embedding of _get_exposure (src/hikcamera.py lines 539-550): float
query first, integer query as fallback, and 0.0 when both fail. -/
def get_exposure_live (env : DevEnv) : Int × List NativeCall :=
  if env.expFloatGetRet = 0 then
    (env.expFloatGetVal, [NativeCall.getFloatValue "ExposureTime"])
  else if env.expIntGetRet = 0 then
    (env.expIntGetVal,
      [NativeCall.getFloatValue "ExposureTime", NativeCall.getIntValue "ExposureTime"])
  else
    (0, [NativeCall.getFloatValue "ExposureTime", NativeCall.getIntValue "ExposureTime"])

/-- Embedding of _get_gain (src/hikcamera.py lines 552-558). -/
def get_gain_live (env : DevEnv) : Int × List NativeCall :=
  if env.gainGetRet = 0 then (env.gainGetVal, [NativeCall.getFloatValue "Gain"])
  else (0, [NativeCall.getFloatValue "Gain"])

/-- Embedding of _get_fps (src/hikcamera.py lines 560-566). -/
def get_fps_live (env : DevEnv) : Int × List NativeCall :=
  if env.fpsGetRet = 0 then
    (env.fpsGetVal, [NativeCall.getFloatValue "AcquisitionFrameRate"])
  else (0, [NativeCall.getFloatValue "AcquisitionFrameRate"])

/-- Embedding of _get_offset_x (src/hikcamera.py lines 568-574). -/
def get_offset_x_live (env : DevEnv) : Int × List NativeCall :=
  if env.offsetXGetRet = 0 then (env.offsetXGetVal, [NativeCall.getIntValue "OffsetX"])
  else (0, [NativeCall.getIntValue "OffsetX"])

/-- Embedding of _get_offset_y (src/hikcamera.py lines 576-582). -/
def get_offset_y_live (env : DevEnv) : Int × List NativeCall :=
  if env.offsetYGetRet = 0 then (env.offsetYGetVal, [NativeCall.getIntValue "OffsetY"])
  else (0, [NativeCall.getIntValue "OffsetY"])

/-- Embedding of HikCamera.get_params (src/hikcamera.py lines 464-486):
the width and height fields are the width/height property reads, which
return the cached config values (lines 348-351 and 361-364) and issue no
native call; exposure, gain, fps and the offsets come from the live helper
queries; pixel_format comes from the cached pixel type of the last
converted frame (falsy cache, None or 0, yields Unknown); trigger_mode is
the cached config string. -/
def get_params (env : DevEnv) (cfg : HikCameraConfig) (pixelTypeCache : Option Int) :
    CameraParams × List NativeCall :=
  let pixel_format_name :=
    match pixelTypeCache with
    | some pt => if pt = 0 then "Unknown" else get_pixel_format_name pt
    | none => "Unknown"
  let re := get_exposure_live env
  let rg := get_gain_live env
  let rf := get_fps_live env
  let rx := get_offset_x_live env
  let ry := get_offset_y_live env
  (⟨cfg.width, cfg.height, re.1, rg.1, rf.1, pixel_format_name, cfg.trigger_mode,
    rx.1, ry.1⟩,
   re.2 ++ rg.2 ++ rf.2 ++ rx.2 ++ ry.2)

/-- Process-wide SDK guard state: the module globals _SDK_INITIALIZED and
_SDK_INIT_COUNT of src/hikcamera.py lines 54-55, plus tallies of how many
times the native initializer and finalizer have been invoked. -/
structure SdkState where
  initialized : Bool
  initCount : Int
  initCalls : Nat
  finalizeCalls : Nat
  deriving DecidableEq

/-- The guard state before any session exists. -/
def sdk0 : SdkState := ⟨false, 0, 0, 0⟩

/-- Embedding of the SDK-acquire fragment of HikCamera.init
(src/hikcamera.py lines 86-94), for the case where the native initializer
reports success: initialize the SDK if the flag is clear, then increment
the count. -/
def sdkAcquire (g : SdkState) : SdkState :=
  let g1 :=
    if g.initialized = false then
      { g with initialized := true, initCalls := g.initCalls + 1 }
    else g
  { g1 with initCount := g1.initCount + 1 }

/-- Embedding of the SDK-release fragment of HikCamera.close
(src/hikcamera.py lines 324-328): decrement the count and, when it is now
at most zero, invoke the native finalizer and clear the flag. -/
def sdkRelease (g : SdkState) : SdkState :=
  let g1 := { g with initCount := g.initCount - 1 }
  if g1.initCount ≤ 0 then
    { g1 with finalizeCalls := g1.finalizeCalls + 1, initialized := false }
  else g1

/-- Creation and close events of two sessions A and B. -/
inductive SessEv where
  | createA | createB | closeA | closeB
  deriving DecidableEq

/-- Effect of one session event on the guard state: a creation runs the
acquire fragment, a close runs the release fragment (the rest of close
does not touch the guard globals). -/
def evStep (g : SdkState) : SessEv → SdkState
  | SessEv.createA => sdkAcquire g
  | SessEv.createB => sdkAcquire g
  | SessEv.closeA => sdkRelease g
  | SessEv.closeB => sdkRelease g

/-- Run a sequence of session events against the guard state. -/
def runEvents (l : List SessEv) (g : SdkState) : SdkState :=
  l.foldl evStep g

/-- Whether an event is a session creation. -/
def isCreate : SessEv → Bool
  | SessEv.createA => true
  | SessEv.createB => true
  | _ => false

/-- A two-session event sequence is overlapping when both creations happen
before either close. -/
def overlapping (l : List SessEv) : Bool :=
  (l.take 2).all isCreate

/-- Per-session state for stop/close: the streaming flag, whether self cam
still holds the MvCamera object, and the process-wide guard state. -/
structure SessState where
  isRunning : Bool
  camAlive : Bool
  sdk : SdkState
  deriving DecidableEq

/-- Environment for close: the status the native stop-grabbing call would
return (the close-device and destroy-handle statuses are discarded by the
source's bare except, so they are not modelled). -/
structure CloseEnv where
  stopRet : Int
  deriving DecidableEq

/-- Embedding of HikCamera.stop (src/hikcamera.py lines 178-186): a no-op
when not streaming, raising on a non-success stop-grabbing status. -/
def stop (ret : Int) (s : SessState) : Option HikErr × SessState :=
  if s.isRunning = false then (none, s)
  else if ret ≠ 0 then (some (HikErr.stopFailed ret), s)
  else (none, { s with isRunning := false })

/-- Embedding of HikCamera.close (src/hikcamera.py lines 309-328): when
streaming, stop() is called and its exception propagates out of close;
otherwise the device teardown runs with errors swallowed, self cam is
cleared, and the SDK-release fragment runs. -/
def close (env : CloseEnv) (s : SessState) : Option HikErr × SessState :=
  match (if s.isRunning then stop env.stopRet s else (none, s)) with
  | (some e, s1) => (some e, s1)
  | (none, s1) =>
      let s2 := if s1.camAlive then { s1 with camAlive := false } else s1
      (none, { s2 with sdk := sdkRelease s2.sdk })

/-- Environment for _auto_connect: the status code of each checked native
call, the enumeration result, and the status codes of the packet-size and
trigger-configuration writes, which the source issues but discards. -/
structure ConnectEnv where
  enumRet : Int
  nDeviceNum : Nat
  isGigE : Bool
  optimalPacketSize : Int
  packetSetRet : Int
  trigModeRet : Int
  trigSourceRet : Int
  createRet : Int
  openRet : Int
  payloadRet : Int
  payloadValue : Int
  deriving DecidableEq

/-- Handle-resource state produced by a connect attempt. -/
structure ConnState where
  handleCreated : Bool
  deviceOpen : Bool
  handleDestroyed : Bool
  payloadSize : Int
  deriving DecidableEq

/-- Connect state before any native resource is acquired. -/
def connInit : ConnState := ⟨false, false, false, 0⟩

/-- Embedding of HikCamera._auto_connect (src/hikcamera.py lines 109-166):
enumerate, check the device count and index, create the handle, open the
device (destroying the handle if the open fails), issue the GigE
packet-size and trigger-mode writes with their statuses discarded, then
query the payload size, whose failure raises without any teardown.  The
result is the raised error if any, the handle state, and the native calls
issued. -/
def auto_connect (idx : Nat) (trigMode : String) (env : ConnectEnv) :
    Option HikErr × ConnState × List NativeCall :=
  let tr0 : List NativeCall := [NativeCall.enumDevices]
  if env.enumRet ≠ 0 then (some (HikErr.enumFailed env.enumRet), connInit, tr0)
  else if env.nDeviceNum = 0 then (some HikErr.noDevice, connInit, tr0)
  else if env.nDeviceNum ≤ idx then
    (some (HikErr.indexOutOfRange idx env.nDeviceNum), connInit, tr0)
  else
    let tr1 := tr0 ++ [NativeCall.createHandle]
    if env.createRet ≠ 0 then (some (HikErr.createFailed env.createRet), connInit, tr1)
    else
      let s1 : ConnState := ⟨true, false, false, 0⟩
      let tr2 := tr1 ++ [NativeCall.openDevice]
      if env.openRet ≠ 0 then
        (some (HikErr.openFailed env.openRet), { s1 with handleDestroyed := true },
          tr2 ++ [NativeCall.destroyHandle])
      else
        let s2 := { s1 with deviceOpen := true }
        let tr3 := tr2 ++
          (if env.isGigE then
            NativeCall.getOptimalPacketSize ::
              (if 0 < env.optimalPacketSize then
                [NativeCall.setIntValue "GevSCPSPacketSize" env.optimalPacketSize]
              else [])
          else [])
        let tr4 := tr3 ++
          (if trigMode = "trigger" then
            [NativeCall.setEnumValue "TriggerMode", NativeCall.setEnumValue "TriggerSource"]
          else [NativeCall.setEnumValue "TriggerMode"])
        let tr5 := tr4 ++ [NativeCall.getIntValue "PayloadSize"]
        if env.payloadRet ≠ 0 then (some (HikErr.payloadFailed env.payloadRet), s2, tr5)
        else (none, { s2 with payloadSize := env.payloadValue }, tr5)

/-- Environment for a frame acquisition: the trigger-command status, the
get-image-buffer status, whether the returned buffer address is null, and
the frame the driver would deliver. -/
structure GrabEnv where
  trigRet : Int
  getBufRet : Int
  bufAddrNull : Bool
  frame : RawFrame
  deriving DecidableEq

/-- Embedding of HikCamera.get_image (src/hikcamera.py lines 188-218):
raises when not streaming before any native call; otherwise requests a
buffer, raises on a null address or non-success status, converts the
frame, and releases the buffer on both the success and failure paths of
the conversion. -/
def get_image (env : GrabEnv) (isRunning : Bool) :
    Except HikErr Image × List NativeCall :=
  if isRunning = false then (Except.error HikErr.notStreaming, [])
  else
    let tr := [NativeCall.getImageBuffer]
    if env.bufAddrNull ∨ env.getBufRet ≠ 0 then
      (Except.error (HikErr.getImageFailed env.getBufRet), tr)
    else
      match convert_frame_to_bgr env.frame with
      | Except.ok img => (Except.ok img, tr ++ [NativeCall.freeImageBuffer])
      | Except.error e =>
          (Except.error (HikErr.convFailed e), tr ++ [NativeCall.freeImageBuffer])

/-- Embedding of HikCamera.trigger_and_get_image (src/hikcamera.py lines
220-240): raises when the configured trigger mode is not software trigger;
otherwise sends the software trigger command, raises on its failure, and
only then delegates to get_image. -/
def trigger_and_get_image (env : GrabEnv) (cfg : HikCameraConfig) (isRunning : Bool) :
    Except HikErr Image × List NativeCall :=
  if cfg.trigger_mode ≠ "trigger" then (Except.error HikErr.wrongTriggerMode, [])
  else if env.trigRet ≠ 0 then
    (Except.error (HikErr.triggerFailed env.trigRet), [NativeCall.setCommandValue "TriggerSoftware"])
  else
    let r := get_image env isRunning
    (r.1, NativeCall.setCommandValue "TriggerSoftware" :: r.2)

/-- The GR-pattern Bayer pixel-format codes (8, 10, 12 bit, packed or not). -/
def grVariants : List Int :=
  [PixelType_Gvsp_BayerGR8, PixelType_Gvsp_BayerGR10, PixelType_Gvsp_BayerGR12,
   PixelType_Gvsp_BayerGR10_Packed, PixelType_Gvsp_BayerGR12_Packed]

/-- The RG-pattern Bayer pixel-format codes. -/
def rgVariants : List Int :=
  [PixelType_Gvsp_BayerRG8, PixelType_Gvsp_BayerRG10, PixelType_Gvsp_BayerRG12,
   PixelType_Gvsp_BayerRG10_Packed, PixelType_Gvsp_BayerRG12_Packed]

/-- The GB-pattern Bayer pixel-format codes. -/
def gbVariants : List Int :=
  [PixelType_Gvsp_BayerGB8, PixelType_Gvsp_BayerGB10, PixelType_Gvsp_BayerGB12,
   PixelType_Gvsp_BayerGB10_Packed, PixelType_Gvsp_BayerGB12_Packed]

/-- The BG-pattern Bayer pixel-format codes. -/
def bgVariants : List Int :=
  [PixelType_Gvsp_BayerBG8, PixelType_Gvsp_BayerBG10, PixelType_Gvsp_BayerBG12,
   PixelType_Gvsp_BayerBG10_Packed, PixelType_Gvsp_BayerBG12_Packed]

/-- C1: the claim says conversion succeeds with a height by width by 3
output for all ten listed formats, but a Mono16 frame carries two bytes
per pixel (here 12 bytes for a 3 by 2 frame), the converter reads the
buffer as uint8 and reshapes it to (height, width), and that reshape
raises ValueError — so conversion of any Mono16 frame of the declared
length fails, while the other nine listed formats do succeed with shape
height by width by 3. -/
theorem mono16_conversion_fails :
    convert_frame_to_bgr (syntheticFrame PixelType_Gvsp_Mono16 3 2) =
      Except.error PyErr.valueError
  ∧ (syntheticFrame PixelType_Gvsp_Mono16 3 2).data.length = 12
  ∧ ([PixelType_Gvsp_Mono8, PixelType_Gvsp_BayerGR8, PixelType_Gvsp_BayerRG8,
      PixelType_Gvsp_BayerGB8, PixelType_Gvsp_BayerBG8, PixelType_Gvsp_RGB8_Packed,
      PixelType_Gvsp_BGR8_Packed, PixelType_Gvsp_RGBA8_Packed,
      PixelType_Gvsp_BGRA8_Packed].all convertShapeOk = true) := by
  decide

/-- C9: every GR-pattern Bayer code in the classifier maps to color code 0,
every RG variant to 1, every GB variant to 2, every BG variant to 3,
these four groups cover all keys of BAYER_TO_COLOR_CODE, the converter's
dispatch sends code 0/1/2/3 to the GR/RG/GB/BG demosaic conversion, and
converting concrete Bayer frames applies exactly the selected conversion
(the four demosaic paths giving pairwise distinct results on that input). -/
theorem bayer_color_code_grouping :
    (grVariants.all (fun pt => BAYER_TO_COLOR_CODE pt == some 0) = true)
  ∧ (rgVariants.all (fun pt => BAYER_TO_COLOR_CODE pt == some 1) = true)
  ∧ (gbVariants.all (fun pt => BAYER_TO_COLOR_CODE pt == some 2) = true)
  ∧ (bgVariants.all (fun pt => BAYER_TO_COLOR_CODE pt == some 3) = true)
  ∧ ((bayerColorPairs.map (fun p => p.1)).all (fun pt =>
        grVariants.contains pt || rgVariants.contains pt ||
        gbVariants.contains pt || bgVariants.contains pt) = true)
  ∧ bayerConvOfCode 0 = ColorConv.bayerGR2BGR
  ∧ bayerConvOfCode 1 = ColorConv.bayerRG2BGR
  ∧ bayerConvOfCode 2 = ColorConv.bayerGB2BGR
  ∧ bayerConvOfCode 3 = ColorConv.bayerBG2BGR
  ∧ convert_frame_to_bgr ⟨2, 2, PixelType_Gvsp_BayerGR8, [1, 2, 3, 4]⟩ =
      Except.ok (cvtColor ColorConv.bayerGR2BGR ⟨2, 2, 1, [1, 2, 3, 4]⟩)
  ∧ convert_frame_to_bgr ⟨2, 2, PixelType_Gvsp_BayerRG8, [1, 2, 3, 4]⟩ =
      Except.ok (cvtColor ColorConv.bayerRG2BGR ⟨2, 2, 1, [1, 2, 3, 4]⟩)
  ∧ convert_frame_to_bgr ⟨2, 2, PixelType_Gvsp_BayerGB10_Packed, [1, 2, 3, 4]⟩ =
      Except.ok (cvtColor ColorConv.bayerGB2BGR ⟨2, 2, 1, [1, 2, 3, 4]⟩)
  ∧ convert_frame_to_bgr ⟨2, 2, PixelType_Gvsp_BayerBG12, [1, 2, 3, 4]⟩ =
      Except.ok (cvtColor ColorConv.bayerBG2BGR ⟨2, 2, 1, [1, 2, 3, 4]⟩)
  ∧ (([ColorConv.bayerGR2BGR, ColorConv.bayerRG2BGR, ColorConv.bayerGB2BGR,
       ColorConv.bayerBG2BGR].map (fun c => cvtColor c ⟨2, 2, 1, [1, 2, 3, 4]⟩)).Nodup) := by
  decide

/-- A connect environment in which one device is found and every native
call reports success. -/
def connEnvOk : ConnectEnv := ⟨0, 1, false, 0, 0, 0, 0, 0, 0, 0, 0⟩

/-- C2 counterexample: with every call succeeding except the payload-size
query (status 5), connect raises an error carrying that status but the
opened device handle is neither closed nor destroyed — an open handle
leaks; and a non-success status (9) from the trigger-mode write does not
abort the sequence at all: connect completes without error. -/
theorem connect_payload_failure_leaks_handle :
    ((auto_connect 0 "continuous" { connEnvOk with payloadRet := 5 }).1 =
        some (HikErr.payloadFailed 5)
  ∧ (auto_connect 0 "continuous" { connEnvOk with payloadRet := 5 }).2.1.deviceOpen = true
  ∧ (auto_connect 0 "continuous" { connEnvOk with payloadRet := 5 }).2.1.handleDestroyed = false)
  ∧ (auto_connect 0 "trigger" { connEnvOk with trigModeRet := 9 }).1 = none := by
  decide

/-- C2 amended: each checked native call of connect (enumerate, create
handle, open device, payload-size query) aborts the remaining steps on a
non-success status and surfaces an error carrying that status; a failed
open destroys the handle before the error propagates; but the packet-size
and trigger-configuration writes are unchecked (their statuses never
affect the outcome), and a payload-size failure propagates with the opened
handle left open and undestroyed. -/
theorem connect_error_paths (idx : Nat) (tm : String) (env : ConnectEnv) :
    (env.enumRet ≠ 0 →
      auto_connect idx tm env =
        (some (HikErr.enumFailed env.enumRet), connInit, [NativeCall.enumDevices]))
  ∧ (env.enumRet = 0 → env.nDeviceNum = 0 →
      auto_connect idx tm env = (some HikErr.noDevice, connInit, [NativeCall.enumDevices]))
  ∧ (env.enumRet = 0 → 0 < env.nDeviceNum → env.nDeviceNum ≤ idx →
      auto_connect idx tm env =
        (some (HikErr.indexOutOfRange idx env.nDeviceNum), connInit, [NativeCall.enumDevices]))
  ∧ (env.enumRet = 0 → idx < env.nDeviceNum → env.createRet ≠ 0 →
      auto_connect idx tm env =
        (some (HikErr.createFailed env.createRet), connInit,
          [NativeCall.enumDevices, NativeCall.createHandle]))
  ∧ (env.enumRet = 0 → idx < env.nDeviceNum → env.createRet = 0 → env.openRet ≠ 0 →
      (auto_connect idx tm env).1 = some (HikErr.openFailed env.openRet)
      ∧ (auto_connect idx tm env).2.1.handleDestroyed = true
      ∧ (auto_connect idx tm env).2.1.deviceOpen = false)
  ∧ (env.enumRet = 0 → idx < env.nDeviceNum → env.createRet = 0 → env.openRet = 0 →
      env.payloadRet ≠ 0 →
      (auto_connect idx tm env).1 = some (HikErr.payloadFailed env.payloadRet)
      ∧ (auto_connect idx tm env).2.1.deviceOpen = true
      ∧ (auto_connect idx tm env).2.1.handleDestroyed = false)
  ∧ (∀ r r2 r3,
      auto_connect idx tm { env with packetSetRet := r, trigModeRet := r2, trigSourceRet := r3 } =
        auto_connect idx tm env) := by
  refine ⟨?_, ?_, ?_, ?_, ?_, ?_, ?_⟩
  · intro h
    simp [auto_connect, h]
  · intro h1 h2
    simp [auto_connect, h1, h2]
  · intro h1 hpos hle
    have h0 : env.nDeviceNum ≠ 0 := by omega
    simp [auto_connect, h1, h0, hle]
  · intro h1 hidx hc
    have h0 : env.nDeviceNum ≠ 0 := by omega
    have hnle : ¬ env.nDeviceNum ≤ idx := by omega
    simp [auto_connect, h1, h0, hnle, hc]
  · intro h1 hidx hc ho
    have h0 : env.nDeviceNum ≠ 0 := by omega
    have hnle : ¬ env.nDeviceNum ≤ idx := by omega
    refine ⟨?_, ?_, ?_⟩ <;> simp [auto_connect, h1, h0, hnle, hc, ho]
  · intro h1 hidx hc ho hp
    have h0 : env.nDeviceNum ≠ 0 := by omega
    have hnle : ¬ env.nDeviceNum ≤ idx := by omega
    refine ⟨?_, ?_, ?_⟩ <;> simp [auto_connect, h1, h0, hnle, hc, ho, hp]
  · intro r r2 r3
    rfl

/-- C2 amended witness: the payload-failure branch of connect_error_paths
evaluated at a concrete environment. -/
theorem connect_error_paths_witness :
    (auto_connect 0 "continuous" { connEnvOk with payloadRet := 7 }).1 =
      some (HikErr.payloadFailed 7)
    ∧ (auto_connect 0 "continuous" { connEnvOk with payloadRet := 7 }).2.1.deviceOpen = true
    ∧ (auto_connect 0 "continuous" { connEnvOk with payloadRet := 7 }).2.1.handleDestroyed
        = false :=
  (connect_error_paths 0 "continuous"
      { connEnvOk with payloadRet := 7 }).2.2.2.2.2.1
    rfl (by decide) rfl rfl (by decide)

/-- Projection fact: releasing the guard always decrements the count. -/
theorem sdkRelease_initCount (g : SdkState) :
    (sdkRelease g).initCount = g.initCount - 1 := by
  simp only [sdkRelease]
  split <;> rfl

/-- Releasing the guard from a count of at most one invokes the finalizer. -/
theorem sdkRelease_finalize_incr (g : SdkState) (h : g.initCount ≤ 1) :
    (sdkRelease g).finalizeCalls = g.finalizeCalls + 1 := by
  simp only [sdkRelease]
  have h2 : g.initCount - 1 ≤ 0 := by omega
  simp [h2]

/-- State of a session after a close that raised nothing: not running, the
camera object cleared, and the guard released once. -/
theorem close_ok_state (env : CloseEnv) (s : SessState) (h : (close env s).1 = none) :
    (close env s).2 = ⟨false, false, sdkRelease s.sdk⟩ := by
  obtain ⟨sir, sca, g⟩ := s
  cases sir <;> cases sca
  · rfl
  · rfl
  · by_cases hs : env.stopRet = 0
    · simp [close, stop, hs]
    · simp [close, stop, hs] at h
  · by_cases hs : env.stopRet = 0
    · simp [close, stop, hs]
    · simp [close, stop, hs] at h

/-- C3 counterexample: close() on a streaming session whose native
stop-grabbing call returns status 3 raises a stop error; and a second
close() of an already-closed single-session state raises no error but is
not a no-op — it invokes the native finalizer again (tally 1 to 2) and
changes the guard state. -/
theorem close_raises_on_stop_failure :
    (close ⟨3⟩ ⟨true, true, ⟨true, 1, 1, 0⟩⟩).1 = some (HikErr.stopFailed 3)
  ∧ (close ⟨0⟩ ⟨false, false, ⟨false, 0, 1, 1⟩⟩).1 = none
  ∧ (close ⟨0⟩ ⟨false, false, ⟨false, 0, 1, 1⟩⟩).2.sdk.finalizeCalls = 2
  ∧ (close ⟨0⟩ ⟨false, false, ⟨false, 0, 1, 1⟩⟩).2 ≠ ⟨false, false, ⟨false, 0, 1, 1⟩⟩ := by
  decide

/-- C3 amended: close() raises only when the session is streaming and the
native stop-grabbing call fails, in which case nothing is torn down; in
every other state it raises no error; a second close() after a successful
one raises no error either, but it decrements the SDK count again and,
whenever the original count was at most two, invokes the native finalizer
a further time — it is not a strict no-op. -/
theorem close_error_policy (s : SessState) (env env2 : CloseEnv) :
    ((s.isRunning = false ∨ env.stopRet = 0) → (close env s).1 = none)
  ∧ (s.isRunning = true → env.stopRet ≠ 0 →
      close env s = (some (HikErr.stopFailed env.stopRet), s))
  ∧ ((close env s).1 = none →
      (close env2 (close env s).2).1 = none
      ∧ (close env2 (close env s).2).2.sdk.initCount = s.sdk.initCount - 2
      ∧ (s.sdk.initCount ≤ 2 →
          (close env s).2.sdk.finalizeCalls <
            (close env2 (close env s).2).2.sdk.finalizeCalls)) := by
  refine ⟨?_, ?_, ?_⟩
  · rintro (h | h)
    · obtain ⟨sir, sca, g⟩ := s
      subst h
      cases sca <;> rfl
    · obtain ⟨sir, sca, g⟩ := s
      cases sir <;> cases sca <;> simp [close, stop, h]
  · intro hr hs
    obtain ⟨sir, sca, g⟩ := s
    subst hr
    simp [close, stop, hs]
  · intro h
    have h1 := close_ok_state env s h
    rw [h1]
    have h2 : close env2 (⟨false, false, sdkRelease s.sdk⟩ : SessState) =
        (none, ⟨false, false, sdkRelease (sdkRelease s.sdk)⟩) := rfl
    rw [h2]
    refine ⟨rfl, ?_, ?_⟩
    · simp [sdkRelease_initCount]
      omega
    · intro hc
      have h3 : (sdkRelease s.sdk).initCount ≤ 1 := by
        rw [sdkRelease_initCount]; omega
      simp [sdkRelease_finalize_incr _ h3]

/-- C3 amended witness: close_error_policy applied to a streaming session
with a successful stop, then closed a second time. -/
theorem close_error_policy_witness :
    (close ⟨0⟩ ⟨true, true, ⟨true, 1, 1, 0⟩⟩).1 = none
  ∧ (close ⟨0⟩ (close ⟨0⟩ ⟨true, true, ⟨true, 1, 1, 0⟩⟩).2).1 = none :=
  ⟨(close_error_policy ⟨true, true, ⟨true, 1, 1, 0⟩⟩ ⟨0⟩ ⟨0⟩).1 (Or.inr rfl),
   ((close_error_policy ⟨true, true, ⟨true, 1, 1, 0⟩⟩ ⟨0⟩ ⟨0⟩).2.2
      ((close_error_policy ⟨true, true, ⟨true, 1, 1, 0⟩⟩ ⟨0⟩ ⟨0⟩).1 (Or.inr rfl))).1⟩

/-- The default session configuration of HikCameraConfig (src/config.py
lines 67-74). -/
def cfg0 : HikCameraConfig := ⟨0, "continuous", 1280, 720, 10000, 0, 30, 1000⟩

/-- C4 counterexample: with the native width write failing (status 17),
the width setter raises, yet the cached config width has already been
overwritten with the new value 640 — it is not left unchanged at 1280. -/
theorem width_setter_caches_before_write :
    (set_width { env0 with widthRet := 17 } cfg0 640).1 = some (HikErr.setFailed "Width" 17)
  ∧ (set_width { env0 with widthRet := 17 } cfg0 640).2.1.width = 640
  ∧ cfg0.width = 1280 := by
  decide

/-- C4 amended: each of the width, height, exposure and fps setters writes
the new value into the cached config before issuing the native write, so
the cached field always holds the new value afterwards; on a non-success
native status the setter raises (for exposure only when both the float and
the fallback integer write fail), with the cached config already holding
the new, unapplied value. -/
theorem setters_cache_update_policy (env : DevEnv) (cfg : HikCameraConfig) (v : Int) :
    ((set_width env cfg v).2.1.width = v)
  ∧ (env.widthRet ≠ 0 →
      (set_width env cfg v).1 = some (HikErr.setFailed "Width" env.widthRet))
  ∧ (env.widthRet = 0 → (set_width env cfg v).1 = none)
  ∧ ((set_height env cfg v).2.1.height = v)
  ∧ (env.heightRet ≠ 0 →
      (set_height env cfg v).1 = some (HikErr.setFailed "Height" env.heightRet))
  ∧ ((set_exposure env cfg v).2.1.exposure = v)
  ∧ (env.expFloatRet ≠ 0 → env.expIntRet ≠ 0 →
      (set_exposure env cfg v).1 = some (HikErr.setFailed "ExposureTime" env.expIntRet))
  ∧ ((set_fps env cfg v).2.1.fps = v)
  ∧ (env.fpsRet ≠ 0 →
      (set_fps env cfg v).1 = some (HikErr.setFailed "AcquisitionFrameRate" env.fpsRet)) := by
  refine ⟨?_, ?_, ?_, ?_, ?_, ?_, ?_, ?_, ?_⟩
  · simp only [set_width]; split <;> rfl
  · intro h; simp [set_width, h]
  · intro h; simp [set_width, h]
  · simp only [set_height]; split <;> rfl
  · intro h; simp [set_height, h]
  · simp only [set_exposure]; split_ifs <;> rfl
  · intro h h2; simp [set_exposure, h, h2]
  · simp only [set_fps]; split <;> rfl
  · intro h; simp [set_fps, h]

/-- C4 amended witness: the width setter at a failing environment. -/
theorem setters_cache_update_policy_witness :
    (set_width { env0 with widthRet := 17 } cfg0 640).2.1.width = 640
  ∧ (set_width { env0 with widthRet := 17 } cfg0 640).1 =
      some (HikErr.setFailed "Width" 17) :=
  ⟨(setters_cache_update_policy { env0 with widthRet := 17 } cfg0 640).1,
   (setters_cache_update_policy { env0 with widthRet := 17 } cfg0 640).2.1 (by decide)⟩

/-- C5 counterexample: on a connected session whose cached config holds
width 1280, get_params reports width 1280 straight from the cache, and its
native-call trace contains no Width or Height query at all — those fields
are not read from the device. -/
theorem get_params_width_from_cache :
    (get_params env0 cfg0 (some PixelType_Gvsp_Mono8)).1.width = 1280
  ∧ cfg0.width = 1280
  ∧ (get_params env0 cfg0 (some PixelType_Gvsp_Mono8)).1.height = cfg0.height
  ∧ (get_params env0 cfg0 (some PixelType_Gvsp_Mono8)).1.pixel_format = "Mono8"
  ∧ NativeCall.getIntValue "Width" ∉ (get_params env0 cfg0 (some PixelType_Gvsp_Mono8)).2
  ∧ NativeCall.getIntValue "Height" ∉ (get_params env0 cfg0 (some PixelType_Gvsp_Mono8)).2 := by
  decide

/-- C5 amended: get_params builds exposure, gain, fps and the offsets from
live per-field device queries (with the float-then-int fallback for
exposure and 0 defaults on failure), but width, height and trigger_mode
come from the cached config and pixel_format from the cached last-frame
pixel type; no Width or Height device query is ever issued. -/
theorem get_params_field_sources (env : DevEnv) (cfg : HikCameraConfig) (ptc : Option Int) :
    (get_params env cfg ptc).1.width = cfg.width
  ∧ (get_params env cfg ptc).1.height = cfg.height
  ∧ (get_params env cfg ptc).1.trigger_mode = cfg.trigger_mode
  ∧ (get_params env cfg ptc).1.exposure =
      (if env.expFloatGetRet = 0 then env.expFloatGetVal
       else if env.expIntGetRet = 0 then env.expIntGetVal else 0)
  ∧ (get_params env cfg ptc).1.gain = (if env.gainGetRet = 0 then env.gainGetVal else 0)
  ∧ (get_params env cfg ptc).1.fps = (if env.fpsGetRet = 0 then env.fpsGetVal else 0)
  ∧ (get_params env cfg ptc).1.offset_x =
      (if env.offsetXGetRet = 0 then env.offsetXGetVal else 0)
  ∧ (get_params env cfg ptc).1.offset_y =
      (if env.offsetYGetRet = 0 then env.offsetYGetVal else 0)
  ∧ (get_params env cfg ptc).1.pixel_format =
      (match ptc with
       | some pt => if pt = 0 then "Unknown" else get_pixel_format_name pt
       | none => "Unknown")
  ∧ (get_params env cfg ptc).1.pixel_format = (get_params env0 cfg0 ptc).1.pixel_format
  ∧ ((get_params env cfg ptc).2.all (fun c =>
      !(c == NativeCall.getIntValue "Width") && !(c == NativeCall.getIntValue "Height"))
        = true) := by
  refine ⟨rfl, rfl, rfl, ?_, ?_, ?_, ?_, ?_, rfl, rfl, ?_⟩ <;>
    simp only [get_params, get_exposure_live, get_gain_live, get_fps_live,
      get_offset_x_live, get_offset_y_live] <;>
    split_ifs <;> simp

/-- Each session-event list's length is the sum of its four per-event counts. -/
theorem sessEv_length_eq (l : List SessEv) :
    l.length = l.count SessEv.createA + l.count SessEv.createB +
      l.count SessEv.closeA + l.count SessEv.closeB := by
  induction l with
  | nil => rfl
  | cons e t ih => cases e <;> simp [List.count_cons, ih] <;> omega

/-- C6 counterexample: the valid order create A, close A, create B,
close B (each session created and closed exactly once) produces two native
initializer calls and two finalizer calls, not exactly one of each. -/
theorem sdk_guard_sequential_sessions_double_init :
    (runEvents [SessEv.createA, SessEv.closeA, SessEv.createB, SessEv.closeB] sdk0).initCalls
        = 2
  ∧ (runEvents [SessEv.createA, SessEv.closeA, SessEv.createB, SessEv.closeB]
        sdk0).finalizeCalls = 2 := by
  decide

/-- C6 amended: for every order of two session creations and their two
closes (each exactly once, every close after its own creation), the native
initializer and finalizer are each called exactly once when the sessions
overlap (both creations precede either close), and exactly twice when
they are sequential (one session closed before the other is created). -/
theorem sdk_guard_init_finalize_counts (l : List SessEv)
    (hA : l.count SessEv.createA = 1) (hB : l.count SessEv.createB = 1)
    (hxA : l.count SessEv.closeA = 1) (hxB : l.count SessEv.closeB = 1)
    (hoA : l.indexOf SessEv.createA < l.indexOf SessEv.closeA)
    (hoB : l.indexOf SessEv.createB < l.indexOf SessEv.closeB) :
    (overlapping l = true →
      (runEvents l sdk0).initCalls = 1 ∧ (runEvents l sdk0).finalizeCalls = 1)
  ∧ (overlapping l = false →
      (runEvents l sdk0).initCalls = 2 ∧ (runEvents l sdk0).finalizeCalls = 2) := by
  have hlen : l.length = 4 := by
    have h := sessEv_length_eq l
    omega
  rcases l with _ | ⟨a, _ | ⟨b, _ | ⟨c, _ | ⟨d, _ | ⟨e, t⟩⟩⟩⟩⟩
  · simp at hlen
  · simp at hlen
  · simp at hlen
  · simp at hlen
  · revert hA hB hxA hxB hoA hoB
    cases a <;> cases b <;> cases c <;> cases d <;> decide
  · simp at hlen

/-- C6 amended witness: the overlapping order create A, create B, close A,
close B yields exactly one initializer and one finalizer call. -/
theorem sdk_guard_init_finalize_counts_witness :
    (runEvents [SessEv.createA, SessEv.createB, SessEv.closeA, SessEv.closeB] sdk0).initCalls
        = 1
  ∧ (runEvents [SessEv.createA, SessEv.createB, SessEv.closeA, SessEv.closeB]
        sdk0).finalizeCalls = 1 :=
  (sdk_guard_init_finalize_counts
      [SessEv.createA, SessEv.createB, SessEv.closeA, SessEv.closeB]
      (by decide) (by decide) (by decide) (by decide) (by decide) (by decide)).1 (by decide)

/-- C7 counterexample: set_params(width = -1) on an accepting device raises
nothing at all — no validation error — while the cached config now holds
width -1 and the native Width write was issued carrying -1, so the invalid
value did reach the native layer. -/
theorem set_params_negative_width_reaches_native :
    (set_params env0 cfg0 (some (-1)) none none none none none none none).1 = none
  ∧ (set_params env0 cfg0 (some (-1)) none none none none none none none).2.2.1.width = -1
  ∧ NativeCall.setIntValue "Width" (-1) ∈
      (set_params env0 cfg0 (some (-1)) none none none none none none none).2.2.2 := by
  decide

/-- C7 amended: set_params(width = -1) performs no config validation — in
every environment it stores -1 into the cached config and issues the
native Width write carrying -1 (any error it can raise is a native write
failure, not a validation one); the validation rejecting non-positive
width with the descriptive error, never clamping, runs only at
HikCameraConfig construction. -/
theorem width_validation_only_at_construction (env : DevEnv) (cfg : HikCameraConfig)
    (w : Int) :
    ((set_params env cfg (some (-1)) none none none none none none none).2.2.1.width = -1)
  ∧ (NativeCall.setIntValue "Width" (-1) ∈
      (set_params env cfg (some (-1)) none none none none none none none).2.2.2)
  ∧ (w ≤ 0 →
      mkConfig 0 "continuous" w 720 10000 0 30 1000 =
        Except.error "width and height must be positive") := by
  refine ⟨?_, ?_, ?_⟩
  · simp only [set_params, psStep, set_width]
    split <;> rfl
  · simp only [set_params, psStep, set_width]
    split <;> simp
  · intro hw
    simp [mkConfig, hw]

/-- C7 amended witness: the amended statement at width 640 replaced by -1
on the all-success environment and at construction width -1. -/
theorem width_validation_only_at_construction_witness :
    ((set_params env0 cfg0 (some (-1)) none none none none none none none).2.2.1.width = -1)
  ∧ (mkConfig 0 "continuous" (-1) 720 10000 0 30 1000 =
      Except.error "width and height must be positive") :=
  ⟨(width_validation_only_at_construction env0 cfg0 (-1)).1,
   (width_validation_only_at_construction env0 cfg0 (-1)).2.2 (by decide)⟩

/-- C8: for every gain value, when both the Gain and the fallback
AnalogGain native writes return non-success statuses, the gain setter (and
set_params with only gain supplied) raises nothing and only reports the
warning, with the cached gain already updated — while the analogous
all-writes-fail situation in every other setter (width, height, exposure,
fps, the offsets) raises. -/
theorem gain_setter_soft_failure (env : DevEnv) (cfg : HikCameraConfig) (v w : Int)
    (hg : env.gainRet ≠ 0) (ha : env.analogGainRet ≠ 0) :
    (set_gain env cfg v).1 = none
  ∧ (set_gain env cfg v).2.1 = true
  ∧ (set_gain env cfg v).2.2.1.gain = v
  ∧ (set_params env cfg none none none (some v) none none none none).1 = none
  ∧ (set_params env cfg none none none (some v) none none none none).2.1 = true
  ∧ (env.widthRet ≠ 0 → (set_width env cfg w).1.isSome = true)
  ∧ (env.heightRet ≠ 0 → (set_height env cfg w).1.isSome = true)
  ∧ (env.expFloatRet ≠ 0 → env.expIntRet ≠ 0 → (set_exposure env cfg w).1.isSome = true)
  ∧ (env.fpsRet ≠ 0 → (set_fps env cfg w).1.isSome = true)
  ∧ (env.offsetXRet ≠ 0 → (set_offset_x env w).1.isSome = true)
  ∧ (env.offsetYRet ≠ 0 → (set_offset_y env w).1.isSome = true) := by
  refine ⟨?_, ?_, ?_, ?_, ?_, ?_, ?_, ?_, ?_, ?_, ?_⟩
  · simp [set_gain, hg, ha]
  · simp [set_gain, hg, ha]
  · simp only [set_gain]; split_ifs <;> rfl
  · simp [set_params, psStep, set_gain, hg, ha]
  · simp [set_params, psStep, set_gain, hg, ha]
  · intro h; simp [set_width, h]
  · intro h; simp [set_height, h]
  · intro h h2; simp [set_exposure, h, h2]
  · intro h; simp [set_fps, h]
  · intro h; simp [set_offset_x, h]
  · intro h; simp [set_offset_y, h]

/-- C8 witness: the gain setter with both native gain writes failing on an
otherwise-default environment. -/
theorem gain_setter_soft_failure_witness :
    (set_gain { env0 with gainRet := 1, analogGainRet := 2 } cfg0 5).1 = none
  ∧ (set_gain { env0 with gainRet := 1, analogGainRet := 2 } cfg0 5).2.1 = true :=
  ⟨(gain_setter_soft_failure { env0 with gainRet := 1, analogGainRet := 2 } cfg0 5 0
      (by decide) (by decide)).1,
   (gain_setter_soft_failure { env0 with gainRet := 1, analogGainRet := 2 } cfg0 5 0
      (by decide) (by decide)).2.1⟩

/-- C10: on a session configured for software trigger that is not
streaming, with the trigger command succeeding, trigger_and_get_image
sends the software trigger command first — it is the only native call
issued — and only afterwards fails with the not-streaming error, so the
trigger side effect occurs even though no image is returned. -/
theorem trigger_before_not_streaming (env : GrabEnv) (cfg : HikCameraConfig)
    (ht : cfg.trigger_mode = "trigger") (hr : env.trigRet = 0) :
    (trigger_and_get_image env cfg false).1 = Except.error HikErr.notStreaming
  ∧ (trigger_and_get_image env cfg false).2 = [NativeCall.setCommandValue "TriggerSoftware"]
  ∧ NativeCall.setCommandValue "TriggerSoftware" ∈ (trigger_and_get_image env cfg false).2 := by
  refine ⟨?_, ?_, ?_⟩ <;> simp [trigger_and_get_image, get_image, ht, hr]

/-- C10 witness: a concrete software-trigger configuration, not streaming,
with a succeeding trigger command. -/
theorem trigger_before_not_streaming_witness :
    (trigger_and_get_image ⟨0, 0, false, syntheticFrame PixelType_Gvsp_Mono8 2 2⟩
        ⟨0, "trigger", 1280, 720, 10000, 0, 30, 1000⟩ false).1 =
      Except.error HikErr.notStreaming :=
  (trigger_before_not_streaming ⟨0, 0, false, syntheticFrame PixelType_Gvsp_Mono8 2 2⟩
      ⟨0, "trigger", 1280, 720, 10000, 0, 30, 1000⟩ rfl rfl).1

end HikCam
